import Mathlib

/-!
# Verification of the LediGlow demo authentication server

A shallow embedding of `src/server.js`: the in-memory `users` and `sessions`
stores, the four HTTP handlers (`POST /api/signup`, `POST /api/login`,
`GET /api/me`, `POST /api/logout`) and the helper `createSid`, together with
theorems settling the specification's claims about them.

JavaScript objects used as string-keyed maps are embedded as association
lists `List (String × α)`; property lookup, assignment and `delete` become
`lookupKey`, `setKey` and `delKey`.  JavaScript string truthiness (`!s` is
true exactly for `undefined` and `""`) is embedded on `Option String`.
The external `bcrypt` library is embedded by its functional contract
(`compare p (hash p cost) = true`, and a hash verifies only against the
password it was built from).  The nondeterministic inputs of a handler call
(`Date.now()`, `new Date().toISOString()`, the random suffix inside
`createSid`) are passed as explicit parameters.
-/

namespace LediGlow

/-- The set of characters matched by JavaScript's `\s` regex class
(so `\S` in the email regex is its complement). -/
def jsIsSpace (c : Char) : Bool :=
  c == ' ' || c == '\t' || c == '\n' || c == '\r' || c == '\x0b' || c == '\x0c'
    || c == '\u00A0' || c == '\u1680'
    || ('\u2000' ≤ c && c ≤ '\u200A')
    || c == '\u2028' || c == '\u2029' || c == '\u202F' || c == '\u205F'
    || c == '\u3000' || c == '\uFEFF'

/-- `/^\S+@\S+\.\S+$/.test s` (server.js line 44): the whole string consists
of non-space characters and splits as `A ++ "@" ++ B ++ "." ++ C` with
`A`, `B`, `C` nonempty; equivalently there are positions `i < j` holding
`'@'` and `'.'` with at least one character before `i`, between `i` and `j`,
and after `j`. -/
def emailRegexTest (s : String) : Bool :=
  let l := s.toList
  l.all (fun c => !jsIsSpace c) &&
    (List.range l.length).any (fun i =>
      (List.range l.length).any (fun j =>
        decide (1 ≤ i) && decide (i + 2 ≤ j) && decide (j + 2 ≤ l.length)
          && (l.getD i ' ' == '@') && (l.getD j ' ' == '.')))

/-- JavaScript truthiness test `!x` for a possibly-missing string field:
true exactly on `undefined` (`none`) and the empty string. -/
def strFalsy : Option String → Bool
  | none => true
  | some s => s == ""

/-- The `bcrypt` password hash, embedded by its functional contract: the
library is an external dependency (not part of this repository), whose
guarantee is that `compare` succeeds exactly against the password the hash
was created from.  The salt/cost factor does not affect that contract. -/
structure BHash where
  pw : String
  deriving Repr, DecidableEq

/-- `bcrypt.hash(password, cost)` (server.js line 49), by its contract. -/
def bcryptHash (password : String) (_cost : Nat) : BHash := ⟨password⟩

/-- `bcrypt.compare(password, hash)` (server.js line 77), by its contract. -/
def bcryptCompare (password : String) (h : BHash) : Bool := password == h.pw

/-- `createSid` (server.js line 33): `'s' + Math.random().toString(36).slice(2)`.
The suffix derived from the `Math.random()` output is abstracted as the
parameter `rand`; what the code fixes is the leading `'s'` and that the
whole token is a function of a single `Math.random()` draw. -/
def createSid (rand : String) : String := "s" ++ rand

/-- An account record, `users[email]` (server.js line 50). -/
structure Account where
  id : String
  email : String
  passwordHash : BHash
  createdAt : String
  deriving Repr, DecidableEq

/-- JavaScript object property lookup `m[k]` on a string-keyed map:
`none` plays `undefined`. -/
def lookupKey {α : Type} : List (String × α) → String → Option α
  | [], _ => none
  | p :: rest, k => if p.1 = k then some p.2 else lookupKey rest k

/-- `delete m[k]`: remove every binding of `k`. -/
def delKey {α : Type} : List (String × α) → String → List (String × α)
  | [], _ => []
  | p :: rest, k => if p.1 = k then delKey rest k else p :: delKey rest k

/-- Property assignment `m[k] = v`: afterwards `k` maps to `v` and every
other key is unchanged. -/
def setKey {α : Type} (m : List (String × α)) (k : String) (v : α) :
    List (String × α) :=
  (k, v) :: delKey m k

/-- The whole mutable state of the server: the `users` and `sessions`
maps (server.js lines 29–30). -/
structure ServerState where
  users : List (String × Account)
  sessions : List (String × String)
  deriving Repr, DecidableEq

/-- The state at startup: both maps empty. -/
def initState : ServerState := { users := [], sessions := [] }

/-- The observable shape of a JSON response: HTTP status, `ok` flag, and the
optional `field`, `message`, `redirect`, `email`, `id` properties.  `res.json`
without `res.status` means status 200. -/
structure ApiResponse where
  status : Nat
  ok : Bool
  field : Option String
  message : Option String
  redirect : Option String
  email : Option String
  id : Option String
  deriving Repr, DecidableEq

/-- A 400/401/409/500 failure body `{ ok:false, field?, message }`. -/
def errResponse (status : Nat) (field : Option String) (message : String) :
    ApiResponse :=
  { status := status, ok := false, field := field, message := some message,
    redirect := none, email := none, id := none }

/-- The signup/login success body `{ ok:true, redirect:'/dashboard.html' }`. -/
def redirectResponse : ApiResponse :=
  { status := 200, ok := true, field := none, message := none,
    redirect := some "/dashboard.html", email := none, id := none }

/-- Everything a handler call produces: the new server state, the JSON
response, the `sid` cookie it sets (if any), and whether it clears the
`sid` cookie. -/
structure HandlerResult where
  state : ServerState
  response : ApiResponse
  setCookie : Option String
  clearCookie : Bool
  deriving Repr, DecidableEq

/-- `POST /api/signup` (server.js lines 42–62).  `email`/`password` are the
possibly-missing body fields; `newId` is `Date.now().toString()`, `createdAt`
is `new Date().toISOString()`, `rand` the random suffix inside `createSid`.
The embedding follows the non-throwing execution (the `catch` arm models a
hashing-subsystem failure that the pure embedding of bcrypt cannot raise). -/
def signup (s : ServerState) (email password : Option String)
    (newId createdAt rand : String) : HandlerResult :=
  if strFalsy email || !emailRegexTest (email.getD "") then
    { state := s, response := errResponse 400 (some "email") "Invalid email",
      setCookie := none, clearCookie := false }
  else if strFalsy password || decide ((password.getD "").length < 8) then
    { state := s,
      response := errResponse 400 (some "password") "Password too short",
      setCookie := none, clearCookie := false }
  else if (lookupKey s.users (email.getD "")).isSome then
    { state := s,
      response := errResponse 409 (some "email") "Email already registered",
      setCookie := none, clearCookie := false }
  else
    let e := email.getD ""
    let pw := password.getD ""
    let acct : Account :=
      { id := newId, email := e, passwordHash := bcryptHash pw 12,
        createdAt := createdAt }
    let sid := createSid rand
    { state := { users := setKey s.users e acct,
                 sessions := setKey s.sessions sid e },
      response := redirectResponse,
      setCookie := some sid, clearCookie := false }

/-- `POST /api/login` (server.js lines 70–87). -/
def login (s : ServerState) (email password : Option String)
    (rand : String) : HandlerResult :=
  if strFalsy email || strFalsy password then
    { state := s, response := errResponse 400 none "Missing fields",
      setCookie := none, clearCookie := false }
  else
    match lookupKey s.users (email.getD "") with
    | none =>
      { state := s,
        response := errResponse 401 (some "email") "Invalid credentials",
        setCookie := none, clearCookie := false }
    | some user =>
      if !bcryptCompare (password.getD "") user.passwordHash then
        { state := s,
          response := errResponse 401 (some "password") "Invalid credentials",
          setCookie := none, clearCookie := false }
      else
        let sid := createSid rand
        { state := { users := s.users,
                     sessions := setKey s.sessions sid (email.getD "") },
          response := redirectResponse,
          setCookie := some sid, clearCookie := false }

/-- Truthiness of a looked-up session value: `!sessions[sid]` is true when
the key is absent or (vacuously, for states the server never builds) bound
to the empty string. -/
def optFalsy (o : Option String) : Bool := o.getD "" == ""

/-- `GET /api/me` (server.js lines 92–99).  `cookieSid` is `req.cookies.sid`. -/
def whoami (s : ServerState) (cookieSid : Option String) : HandlerResult :=
  let sid := cookieSid.getD ""
  if sid == "" || optFalsy (lookupKey s.sessions sid) then
    { state := s, response := errResponse 401 none "Not authenticated",
      setCookie := none, clearCookie := false }
  else
    let email := (lookupKey s.sessions sid).getD ""
    match lookupKey s.users email with
    | none =>
      { state := s, response := errResponse 401 none "Not authenticated",
        setCookie := none, clearCookie := false }
    | some user =>
      { state := s,
        response := { status := 200, ok := true, field := none,
                      message := none, redirect := none,
                      email := some user.email, id := some user.id },
        setCookie := none, clearCookie := false }

/-- `POST /api/logout` (server.js lines 104–111). -/
def logout (s : ServerState) (cookieSid : Option String) : HandlerResult :=
  let sid := cookieSid.getD ""
  if sid == "" then
    { state := s,
      response := { status := 200, ok := true, field := none, message := none,
                    redirect := none, email := none, id := none },
      setCookie := none, clearCookie := false }
  else
    { state := { users := s.users, sessions := delKey s.sessions sid },
      response := { status := 200, ok := true, field := none, message := none,
                    redirect := none, email := none, id := none },
      setCookie := none, clearCookie := true }

/-- Normalization of an email for identity purposes, as the specification
uses the word: emails differing only in letter case normalize equally. -/
def normalizeEmail (e : String) : String := String.mk (e.data.map Char.toLower)

/-- The states the server can reach from startup by any sequence of
handler calls. -/
inductive Reachable : ServerState → Prop
  | init : Reachable initState
  | step_signup {s} (email password : Option String) (i c r : String) :
      Reachable s → Reachable (signup s email password i c r).state
  | step_login {s} (email password : Option String) (r : String) :
      Reachable s → Reachable (login s email password r).state
  | step_whoami {s} (cookieSid : Option String) :
      Reachable s → Reachable (whoami s cookieSid).state
  | step_logout {s} (cookieSid : Option String) :
      Reachable s → Reachable (logout s cookieSid).state

/-! ## Basic lemmas about the store operations -/

theorem lookupKey_setKey_same {α : Type} (m : List (String × α)) (k : String)
    (v : α) : lookupKey (setKey m k v) k = some v := by
  simp [setKey, lookupKey]

theorem lookupKey_delKey_same {α : Type} (m : List (String × α)) (k : String) :
    lookupKey (delKey m k) k = none := by
  induction m with
  | nil => simp [delKey, lookupKey]
  | cons p rest ih =>
    by_cases h : p.1 = k <;> simp [delKey, lookupKey, h, ih]

theorem delKey_eq_of_lookup_none {α : Type} (m : List (String × α))
    (k : String) (h : lookupKey m k = none) : delKey m k = m := by
  induction m with
  | nil => simp [delKey]
  | cons p rest ih =>
    by_cases hpk : p.1 = k
    · simp [lookupKey, hpk] at h
    · simp only [lookupKey, hpk, if_false] at h
      simp [delKey, hpk, ih h]

theorem delKey_idem {α : Type} (m : List (String × α)) (k : String) :
    delKey (delKey m k) k = delKey m k :=
  delKey_eq_of_lookup_none _ _ (lookupKey_delKey_same m k)

theorem mem_delKey {α : Type} {m : List (String × α)} {k : String}
    {q : String × α} (h : q ∈ delKey m k) : q ∈ m ∧ q.1 ≠ k := by
  induction m with
  | nil => simp [delKey] at h
  | cons p rest ih =>
    by_cases hpk : p.1 = k
    · simp only [delKey, hpk, if_true] at h
      exact ⟨List.mem_cons_of_mem _ (ih h).1, (ih h).2⟩
    · simp only [delKey, hpk, if_false, List.mem_cons] at h
      rcases h with h | h
      · exact ⟨by simp [h], by rw [h]; exact hpk⟩
      · exact ⟨List.mem_cons_of_mem _ (ih h).1, (ih h).2⟩

theorem delKey_sublist {α : Type} (m : List (String × α)) (k : String) :
    List.Sublist (delKey m k) m := by
  induction m with
  | nil => simp [delKey]
  | cons p rest ih =>
    by_cases hpk : p.1 = k
    · simp only [delKey, hpk, if_true]
      exact ih.cons p
    · simp only [delKey, hpk, if_false]
      exact ih.cons₂ p

theorem pairwise_keys_setKey {α : Type} (m : List (String × α)) (k : String)
    (v : α) (h : m.Pairwise (fun a b => a.1 ≠ b.1)) :
    (setKey m k v).Pairwise (fun a b => a.1 ≠ b.1) := by
  refine List.Pairwise.cons ?_ (h.sublist (delKey_sublist m k))
  intro q hq
  exact fun hkq => (mem_delKey hq).2 hkq.symm

/-! ## Basic lemmas about strings and truthiness -/

theorem beq_empty_of_email_ok {e : String} (he : emailRegexTest e = true) :
    (e == "") = false := by
  rw [beq_eq_false_iff_ne]
  intro h
  subst h
  exact absurd he (by decide)

theorem beq_empty_of_long {pw : String} (hp : 8 ≤ pw.length) :
    (pw == "") = false := by
  rw [beq_eq_false_iff_ne]
  intro h
  subst h
  exact absurd hp (by decide)

theorem createSid_beq_empty (r : String) : (createSid r == "") = false := by
  rw [beq_eq_false_iff_ne]
  intro h
  have hlen := congrArg String.length h
  simp [createSid, String.length_append] at hlen
  exact absurd hlen.1 (by decide)

/-! ## Shape of handler executions -/

/-- A signup whose inputs pass all three checks takes the success branch. -/
theorem signup_success_shape (s : ServerState) (e pw i c r : String)
    (he : emailRegexTest e = true) (hp : 8 ≤ pw.length)
    (hnew : lookupKey s.users e = none) :
    signup s (some e) (some pw) i c r =
      { state := { users := setKey s.users e
                     { id := i, email := e, passwordHash := bcryptHash pw 12,
                       createdAt := c },
                   sessions := setKey s.sessions (createSid r) e },
        response := redirectResponse,
        setCookie := some (createSid r), clearCookie := false } := by
  have h1 := beq_empty_of_email_ok he
  have h2 := beq_empty_of_long hp
  have h3 : ¬ pw.length < 8 := Nat.not_lt.mpr hp
  simp [signup, strFalsy, Option.getD, he, h1, h2, h3, hnew]

/-- `POST /api/login` never touches the `users` map. -/
theorem login_users_eq (s : ServerState) (email password : Option String)
    (r : String) : (login s email password r).state.users = s.users := by
  unfold login
  split
  · rfl
  · split
    · rfl
    · split
      · rfl
      · rfl

/-- `GET /api/me` never changes the state. -/
theorem whoami_state_eq (s : ServerState) (cookieSid : Option String) :
    (whoami s cookieSid).state = s := by
  unfold whoami
  dsimp only
  split
  · rfl
  · split
    · rfl
    · rfl

/-- `POST /api/logout` never touches the `users` map. -/
theorem logout_users_eq (s : ServerState) (cookieSid : Option String) :
    (logout s cookieSid).state.users = s.users := by
  unfold logout
  dsimp only
  split
  · rfl
  · rfl

/-! ## The users-map well-formedness invariant -/

/-- Well-formedness of the `users` map: keys are pairwise distinct, and each
record is stored under its own `email` field. -/
def usersWF (s : ServerState) : Prop :=
  s.users.Pairwise (fun a b => a.1 ≠ b.1) ∧ ∀ p ∈ s.users, p.1 = p.2.email

theorem usersWF_of_users_eq {s t : ServerState} (h : t.users = s.users)
    (hs : usersWF s) : usersWF t := by
  unfold usersWF
  rw [h]
  exact hs

theorem usersWF_signup (s : ServerState) (email password : Option String)
    (i c r : String) (hs : usersWF s) :
    usersWF (signup s email password i c r).state := by
  unfold signup
  split
  · exact hs
  · split
    · exact hs
    · split
      · exact hs
      · refine ⟨pairwise_keys_setKey _ _ _ hs.1, ?_⟩
        intro p hp
        simp only [setKey, List.mem_cons] at hp
        rcases hp with hp | hp
        · rw [hp]
        · exact hs.2 p (mem_delKey hp).1

/-- Every reachable state has a well-formed `users` map. -/
theorem reachable_usersWF (s : ServerState) (h : Reachable s) : usersWF s := by
  induction h with
  | init => exact ⟨List.Pairwise.nil, by intro p hp; simp [initState] at hp⟩
  | step_signup email password i c r _ ih => exact usersWF_signup _ email password i c r ih
  | step_login email password r _ ih =>
    exact usersWF_of_users_eq (login_users_eq _ email password r) ih
  | step_whoami cookieSid _ ih =>
    exact usersWF_of_users_eq (by rw [whoami_state_eq]) ih
  | step_logout cookieSid _ ih =>
    exact usersWF_of_users_eq (logout_users_eq _ cookieSid) ih

/-! ## Concrete test states -/

/-- The result of `Signup("A@b.co","password1")` then `Signup("a@b.co","password2")`
from startup: the second call, differing from the first only in the letter
case of the email, is *not* treated as a duplicate. -/
def caseVariantSecond : HandlerResult :=
  signup (signup initState (some "A@b.co") (some "password1") "1" "t1" "r1").state
    (some "a@b.co") (some "password2") "2" "t2" "r2"

/-- A state with exactly one account, `a@b.com` with password `password1`. -/
def regState : ServerState :=
  (signup initState (some "a@b.com") (some "password1") "1" "t1" "r1").state

/-! ## Claims -/

/-- **C1** — counterexample.  The claim as stated is false of the code: from
startup, `Signup("A@b.co","password1")` succeeds and then
`Signup("a@b.co","password2")` also succeeds (no `Conflict`), leaving two
distinct Account records whose emails are equal after normalization — the
code never normalizes emails, it keys the store by the raw string. -/
theorem signup_case_variant_duplicate_accounts :
    caseVariantSecond.response.ok = true ∧
    caseVariantSecond.state.users.map (fun p => p.2.email) =
      ["a@b.co", "A@b.co"] ∧
    caseVariantSecond.state.users.map (fun p => normalizeEmail p.2.email) =
      ["a@b.co", "a@b.co"] := by
  decide

/-- **C1** (amended): the users store holds at most one Account per *exact*
email string: in every reachable state the stored accounts' raw `email`
fields are pairwise distinct.  (The per-*normalized*-email version fails,
see `signup_case_variant_duplicate_accounts`.) -/
theorem at_most_one_account_per_exact_email (s : ServerState)
    (h : Reachable s) :
    s.users.Pairwise (fun a b => a.2.email ≠ b.2.email) := by
  obtain ⟨hkeys, hmem⟩ := reachable_usersWF s h
  refine hkeys.imp_of_mem ?_
  intro a b ha hb hne
  rw [← hmem a ha, ← hmem b hb]
  exact hne

/-- **C1** witness: the amended claim applied to the concrete reachable
state that registers `a@b.com`. -/
theorem at_most_one_account_per_exact_email_witness :
    ((signup initState (some "a@b.com") (some "password1") "1" "t1" "r1").state.users.Pairwise
      (fun a b => a.2.email ≠ b.2.email)) :=
  at_most_one_account_per_exact_email _
    (Reachable.step_signup (some "a@b.com") (some "password1") "1" "t1" "r1"
      Reachable.init)

/-- **C2** — the claim is false of the code (the spec itself flags this as a
source defect in §9): with `a@b.com` registered, a login with the right
email but wrong password and a login with an unregistered email both return
status 401 with message `Invalid credentials`, but the response bodies
differ in the `field` property (`"password"` vs `"email"`), so the two
failures are distinguishable by the caller and leak account existence. -/
theorem login_failure_responses_distinguishable :
    (login regState (some "a@b.com") (some "wrongpassword") "r2").response.status = 401 ∧
    (login regState (some "missing@b.com") (some "password1") "r2").response.status = 401 ∧
    (login regState (some "a@b.com") (some "wrongpassword") "r2").response.field = some "password" ∧
    (login regState (some "missing@b.com") (some "password1") "r2").response.field = some "email" ∧
    (login regState (some "a@b.com") (some "wrongpassword") "r2").response ≠
      (login regState (some "missing@b.com") (some "password1") "r2").response := by
  decide

/-- **C3**: for every syntactically valid email (per the code's regex) with
a password of length ≥ 8 and no existing account under that email, signup
succeeds (200, `ok:true`) and a subsequent login with the same email and
password also succeeds — the stored hash verifies against the original
password. -/
theorem signup_then_login_succeeds (s : ServerState) (e pw : String)
    (he : emailRegexTest e = true) (hp : 8 ≤ pw.length)
    (hnew : lookupKey s.users e = none) (i c r r2 : String) :
    (signup s (some e) (some pw) i c r).response.ok = true ∧
    (signup s (some e) (some pw) i c r).response.status = 200 ∧
    (login (signup s (some e) (some pw) i c r).state (some e) (some pw) r2).response.ok = true ∧
    (login (signup s (some e) (some pw) i c r).state (some e) (some pw) r2).response.status = 200 := by
  rw [signup_success_shape s e pw i c r he hp hnew]
  have h1 := beq_empty_of_email_ok he
  have h2 := beq_empty_of_long hp
  refine ⟨rfl, rfl, ?_, ?_⟩ <;>
    simp [login, strFalsy, Option.getD, h1, h2, lookupKey_setKey_same,
      bcryptCompare, bcryptHash, redirectResponse]

/-- **C3** witness: the theorem at `a@b.com` / `password1` from startup. -/
theorem signup_then_login_succeeds_witness :
    (signup initState (some "a@b.com") (some "password1") "1" "t" "r").response.ok = true ∧
    (signup initState (some "a@b.com") (some "password1") "1" "t" "r").response.status = 200 ∧
    (login (signup initState (some "a@b.com") (some "password1") "1" "t" "r").state
      (some "a@b.com") (some "password1") "r2").response.ok = true ∧
    (login (signup initState (some "a@b.com") (some "password1") "1" "t" "r").state
      (some "a@b.com") (some "password1") "r2").response.status = 200 :=
  signup_then_login_succeeds initState "a@b.com" "password1" (by decide)
    (by decide) rfl "1" "t" "r" "r2"

/-- **C4** — counterexample.  Read literally ("a second Signup for that
email fails with Conflict", for *every* second call), the claim is false:
with `a@b.com` registered, `Signup("a@b.com","x")` fails with 400
`InvalidInput` field `password` — the password-length check runs before the
duplicate check — not with 409 `Conflict`. -/
theorem duplicate_signup_short_password_not_conflict :
    (signup regState (some "a@b.com") (some "x") "2" "t2" "r2").response =
      errResponse 400 (some "password") "Password too short" ∧
    (signup regState (some "a@b.com") (some "x") "2" "t2" "r2").response.status ≠ 409 := by
  decide

/-- **C4** (amended): for every already-registered email, a second Signup
for that email whose inputs pass validation (the registered email's shape,
password length ≥ 8) fails with 409 `Conflict`; the whole server state is
unchanged by the failed call, the stored Account is still there, and its
hash verifies against exactly the passwords whose hash it is — in
particular only against the password of the first, successful signup. -/
theorem duplicate_signup_conflict (s : ServerState) (e pw2 : String)
    (a : Account) (ha : lookupKey s.users e = some a)
    (he : emailRegexTest e = true) (hp : 8 ≤ pw2.length) (i c r : String) :
    (signup s (some e) (some pw2) i c r).response =
      errResponse 409 (some "email") "Email already registered" ∧
    (signup s (some e) (some pw2) i c r).state = s ∧
    lookupKey (signup s (some e) (some pw2) i c r).state.users e = some a ∧
    ∀ p : String, bcryptCompare p a.passwordHash = true ↔
      bcryptHash p 12 = a.passwordHash := by
  have h1 := beq_empty_of_email_ok he
  have h2 := beq_empty_of_long hp
  have h3 : ¬ pw2.length < 8 := Nat.not_lt.mpr hp
  have hshape : signup s (some e) (some pw2) i c r =
      { state := s,
        response := errResponse 409 (some "email") "Email already registered",
        setCookie := none, clearCookie := false } := by
    simp [signup, strFalsy, Option.getD, he, h1, h2, h3, ha]
  refine ⟨by rw [hshape], by rw [hshape], by rw [hshape]; exact ha, ?_⟩
  intro p
  cases a with
  | mk id email ph createdAt =>
    cases ph with
    | mk w => simp [bcryptCompare, bcryptHash, BHash.mk.injEq]

/-- **C4** witness: the amended claim at the concrete registered state. -/
theorem duplicate_signup_conflict_witness :
    (signup regState (some "a@b.com") (some "password2") "2" "t2" "r2").response =
      errResponse 409 (some "email") "Email already registered" ∧
    (signup regState (some "a@b.com") (some "password2") "2" "t2" "r2").state = regState :=
  ⟨(duplicate_signup_conflict regState "a@b.com" "password2"
      { id := "1", email := "a@b.com", passwordHash := { pw := "password1" },
        createdAt := "t1" } (by decide) (by decide) (by decide) "2" "t2" "r2").1,
   (duplicate_signup_conflict regState "a@b.com" "password2"
      { id := "1", email := "a@b.com", passwordHash := { pw := "password1" },
        createdAt := "t1" } (by decide) (by decide) (by decide) "2" "t2" "r2").2.1⟩

/-- **C5** — the claim is false of the code (flagged by the spec itself in
§9): `createSid` derives the entire token from one `Math.random()` draw,
and `Math.random` is not a cryptographically secure source.  A
`Math.random()` result is an IEEE-754 double in `[0,1)` carrying at most 52
random mantissa bits, so whatever string formatting
(`toString(36).slice(2)`) is applied to the draw, the set of tokens
reachable from the at most `2^52` distinct draws has fewer than `2^128`
elements: the token space falls far short of the ≥128 bits of entropy the
claim requires. -/
theorem sid_space_below_128_bits (format : Nat → String) :
    ((Finset.range (2 ^ 52)).image (fun d => createSid (format d))).card < 2 ^ 128 :=
  lt_of_le_of_lt
    (le_trans Finset.card_image_le (le_of_eq (Finset.card_range _)))
    (by norm_num)

/-- **C6**: signup input validation.  If the email is missing or fails the
address-shape regex, the call fails with 400 `InvalidInput` field `email`;
if the email passes but the password is missing or shorter than 8
characters, it fails with 400 `InvalidInput` field `password`; in both
cases the state is unchanged — no Account and no Session is created, and no
cookie is set. -/
theorem signup_validation (s : ServerState) (email password : Option String)
    (i c r : String) :
    ((strFalsy email || !emailRegexTest (email.getD "")) = true →
      signup s email password i c r =
        { state := s,
          response := errResponse 400 (some "email") "Invalid email",
          setCookie := none, clearCookie := false }) ∧
    ((strFalsy email || !emailRegexTest (email.getD "")) = false →
      (strFalsy password || decide ((password.getD "").length < 8)) = true →
      signup s email password i c r =
        { state := s,
          response := errResponse 400 (some "password") "Password too short",
          setCookie := none, clearCookie := false }) := by
  constructor
  · intro h
    simp [signup, h]
  · intro h1 h2
    simp [signup, h1, h2]

/-- **C6** witness: the specification's two concrete probes,
`Signup("not-an-email","longpassword")` and `Signup("a@b.com","short")`. -/
theorem signup_validation_witness :
    signup initState (some "not-an-email") (some "longpassword") "1" "t" "r" =
      { state := initState,
        response := errResponse 400 (some "email") "Invalid email",
        setCookie := none, clearCookie := false } ∧
    signup initState (some "a@b.com") (some "short") "1" "t" "r" =
      { state := initState,
        response := errResponse 400 (some "password") "Password too short",
        setCookie := none, clearCookie := false } :=
  ⟨(signup_validation initState (some "not-an-email") (some "longpassword")
      "1" "t" "r").1 (by decide),
   (signup_validation initState (some "a@b.com") (some "short")
      "1" "t" "r").2 (by decide) (by decide)⟩

/-- **C7**: round-trip.  A signup that passes validation returns the fresh
session token in the `sid` cookie, and an immediate `GET /api/me` with that
token succeeds and returns the same email together with the created
account's id. -/
theorem signup_whoami_roundtrip (s : ServerState) (e pw : String)
    (he : emailRegexTest e = true) (hp : 8 ≤ pw.length)
    (hnew : lookupKey s.users e = none) (i c r : String) :
    (signup s (some e) (some pw) i c r).setCookie = some (createSid r) ∧
    (whoami (signup s (some e) (some pw) i c r).state
        (some (createSid r))).response =
      { status := 200, ok := true, field := none, message := none,
        redirect := none, email := some e, id := some i } := by
  rw [signup_success_shape s e pw i c r he hp hnew]
  have hsid := createSid_beq_empty r
  have he0 := beq_empty_of_email_ok he
  constructor
  · rfl
  · simp [whoami, Option.getD, hsid, lookupKey_setKey_same, optFalsy, he0]

/-- **C7** witness: the specification's probe
`Signup("a@b.com","longpassword")` followed by `WhoAmI` on the returned
token. -/
theorem signup_whoami_roundtrip_witness :
    (signup initState (some "a@b.com") (some "longpassword") "7" "t" "r").setCookie =
      some (createSid "r") ∧
    (whoami (signup initState (some "a@b.com") (some "longpassword") "7" "t" "r").state
        (some (createSid "r"))).response =
      { status := 200, ok := true, field := none, message := none,
        redirect := none, email := some "a@b.com", id := some "7" } :=
  signup_whoami_roundtrip initState "a@b.com" "longpassword" (by decide)
    (by decide) rfl "7" "t" "r"

/-- **C8**: for every token (present, absent, or already revoked), a
`WhoAmI` run after `Logout` of that token fails with 401
`Not authenticated` — the token no longer resolves to a session. -/
theorem logout_then_whoami_unauthenticated (s : ServerState)
    (tok : Option String) :
    (whoami (logout s tok).state tok).response =
      errResponse 401 none "Not authenticated" := by
  cases tok with
  | none => simp [logout, whoami, Option.getD, optFalsy]
  | some t =>
    by_cases ht : t = ""
    · subst ht
      simp [logout, whoami, Option.getD, optFalsy]
    · have hbe : (t == "") = false := by rw [beq_eq_false_iff_ne]; exact ht
      simp [logout, whoami, Option.getD, hbe, lookupKey_delKey_same, optFalsy]

/-- **C9**: logout is total and idempotent — it always answers
`{ok:true}` (200); running it twice with the same token gives the same
response and the same final state as running it once; and logging out a
token with no session leaves the state unchanged. -/
theorem logout_idempotent_total (s : ServerState) (tok : Option String) :
    (logout s tok).response.ok = true ∧
    (logout s tok).response.status = 200 ∧
    (logout (logout s tok).state tok).response = (logout s tok).response ∧
    (logout (logout s tok).state tok).state = (logout s tok).state ∧
    (lookupKey s.sessions (tok.getD "") = none → (logout s tok).state = s) := by
  cases tok with
  | none => simp [logout, Option.getD]
  | some t =>
    by_cases ht : t = ""
    · subst ht
      simp [logout, Option.getD]
    · have hbe : (t == "") = false := by rw [beq_eq_false_iff_ne]; exact ht
      refine ⟨?_, ?_, ?_, ?_, ?_⟩
      · simp [logout, Option.getD, hbe]
      · simp [logout, Option.getD, hbe]
      · simp [logout, Option.getD, hbe]
      · simp [logout, Option.getD, hbe, delKey_idem]
      · intro hnone
        simp [logout, Option.getD, hbe,
          delKey_eq_of_lookup_none s.sessions t hnone]

/-- **C9** witness: logout of a token that has no session, from startup. -/
theorem logout_idempotent_total_witness :
    (logout initState (some "x")).response.ok = true ∧
    (logout initState (some "x")).state = initState :=
  ⟨(logout_idempotent_total initState (some "x")).1,
   (logout_idempotent_total initState (some "x")).2.2.2.2 rfl⟩

/-- **C10**: a request with no body fields at all is rejected with 400 by
both signup and login; neither handler changes the state, so neither the
users store nor the sessions store is modified. -/
theorem missing_body_rejected (s : ServerState) (i c r : String) :
    (signup s none none i c r).response.status = 400 ∧
    (signup s none none i c r).response.ok = false ∧
    (signup s none none i c r).state = s ∧
    (login s none none r).response.status = 400 ∧
    (login s none none r).response.ok = false ∧
    (login s none none r).state = s := by
  refine ⟨?_, ?_, ?_, ?_, ?_, ?_⟩ <;> rfl

end LediGlow
